import Mathlib

/-!
Shallow embedding of the core of the `crunchyroll-rs` client library
(pagination engine in `src/common.rs`, polymorphic media resolver and
identifier resolution in `src/media/media.rs`, stream-variant
normalization in `src/media/stream.rs`), together with proofs about the
specified behaviour.

Modelling conventions:
* `u32` counters become `Nat` (the counters only ever grow by one per
  yielded item, so no wrap-around is reachable in any statement below).
* `Vec<T>` becomes `List T`; `HashMap` becomes an association list with
  overwrite-on-insert, which determinizes the (unspecified) hash-map
  iteration order.
* Fallible Rust code returns `Except`; a Rust panic (`Vec::remove` on an
  empty vector, polling an already-completed boxed future) is an explicit
  `panic` outcome of the step function.
* Asynchronous fetch futures are modelled as resolving on their first
  poll, so a stored `next_state` can only be an already-completed future
  (the code stores one exactly when a fetch resolved with an error and
  the error arm did not clear it).
* The HTTP transport is the out-of-scope collaborator: functions that
  perform a request are modelled as functions of the already-fetched
  response, and the pagination fetch closure is an explicit function
  argument of the step function (the `FnMut` closure receives the
  consumed count, the executor and the query, exactly as in the source).
-/

namespace Crunchyroll

/-- Modelled from the spec: the shared execution context (`Executor`,
defined outside the provided sources) is an opaque reference-counted
handle; none of its internals are relevant to the claims. -/
inductive Executor
  | mk
  deriving DecidableEq, Repr

/-- Modelled from the spec: the crate's error enum (`error.rs` is outside
the provided sources); variants and their string contexts follow the
spec's error-kind list and the constructor calls visible in
`media.rs` / `stream.rs`. -/
inductive CrunchyrollError
  | Input (context : String)
  | Internal (context : String)
  | Decode (context : String)
  | Request (context : String)
  | External (context : String)
  deriving DecidableEq, Repr

/-- Query template: ordered key-value pairs (`Vec<(String, String)>`). -/
abbrev Query := List (String × String)

/-- The type of the pagination fetch closure `next_fn`: it receives the
consumed count, the executor and the query template and returns a page
of items together with the server-declared total
(`FnMut(u32, Arc<Executor>, Vec<(String, String)>) -> Future<Result<(Vec<T>, u32)>>`).
The closure is modelled as a pure function of the consumed count. -/
abbrev Fetch (T : Type) := Nat → Executor → Query → Except CrunchyrollError (List T × Nat)

/-- State of `Pagination<T>` (src/common.rs, lines 35-53).  The boxed
`next_fn` closure is passed to the step functions instead of being
stored; `next_state` holds the in-flight future, modelled by the result
it resolved to (futures resolve on their first poll in this embedding). -/
structure Pagination (T : Type) where
  data : List T
  init : Bool
  nextState : Option (Except CrunchyrollError (List T × Nat))
  fn_executor : Executor
  fn_query : Query
  count : Nat
  total : Nat
  deriving Repr

/-- `Pagination::new` (src/common.rs, lines 96-121). -/
def Pagination.new {T : Type} (executor : Executor) (query_args : Query) : Pagination T :=
  { data := []
    init := false
    nextState := none
    fn_executor := executor
    fn_query := query_args
    count := 0
    total := 0 }

/-- Outcome of one `poll_next` call on the stream. -/
inductive PollOut (T : Type)
  | yield (item : T)
  | errorOut (e : CrunchyrollError)
  | done
  | panic
  deriving DecidableEq, Repr

/-- `<Pagination<T> as Stream>::poll_next` (src/common.rs, lines 58-90).
Returns the poll outcome, the new cursor state, and the number of
`next_fn` invocations made during this poll (0 or 1).

Source correspondence, line by line:
* `if self.count < self.total || !self.init` — outer guard;
* a stored `next_state` is re-polled; since every stored future is
  already completed (see the error arm), re-polling it is the panic of
  resuming a completed async-block future;
* with no stored state, `next_fn(count, executor, query)` is invoked and
  (resolving immediately) either fails — the error is returned and
  `next_state` is NOT cleared (the `Err` arm returns early) — or
  succeeds: `data` is replaced wholesale by the page, `total` by the
  declared total, `next_state` is cleared, then `init = true`,
  `count += 1` and `data.remove(0)` is returned; `remove(0)` on an empty
  page is a panic. -/
def Pagination.pollNextF {T : Type} (f : Fetch T) (s : Pagination T) :
    PollOut T × Pagination T × Nat :=
  if s.count < s.total ∨ s.init = false then
    match s.nextState with
    | some _ => (PollOut.panic, s, 0)
    | none =>
      match f s.count s.fn_executor s.fn_query with
      | Except.error e =>
        (PollOut.errorOut e, { s with nextState := some (Except.error e) }, 1)
      | Except.ok (t, total) =>
        let s' : Pagination T :=
          { s with data := t, total := total, nextState := none,
                   init := true, count := s.count + 1 }
        match t with
        | [] => (PollOut.panic, s', 1)
        | x :: rest => (PollOut.yield x, { s' with data := rest }, 1)
  else
    (PollOut.done, s, 0)

/-- `Pagination::total` (src/common.rs, lines 124-129): if the cursor was
never initialized, perform one full `StreamExt::next` pull (discarding
its outcome), then report the stored total.  Returns the reported total,
the new state and the number of `next_fn` invocations. -/
def Pagination.totalF {T : Type} (f : Fetch T) (s : Pagination T) :
    Nat × Pagination T × Nat :=
  if s.init = false then
    match Pagination.pollNextF f s with
    | (_, s', n) => (s'.total, s', n)
  else
    (s.total, s, 0)

/-- Result of driving the stream until it stops yielding items. -/
inductive RunResult (T : Type)
  | finished (items : List T) (s : Pagination T)
  | errored (items : List T) (e : CrunchyrollError) (s : Pagination T)
  | panicked (items : List T)
  | outOfFuel
  deriving Repr

/-- Prepend an already-yielded item to a run outcome. -/
def RunResult.consItem {T : Type} (x : T) : RunResult T → RunResult T
  | RunResult.finished items s => RunResult.finished (x :: items) s
  | RunResult.errored items e s => RunResult.errored (x :: items) e s
  | RunResult.panicked items => RunResult.panicked (x :: items)
  | RunResult.outOfFuel => RunResult.outOfFuel

/-- The yielded items of a cleanly exhausted run (`None` reached). -/
def RunResult.finishedItems {T : Type} : RunResult T → Option (List T)
  | RunResult.finished items _ => some items
  | _ => none

/-- Drive `poll_next` repeatedly (`fuel` bounds the number of polls)
until the stream yields `None`, an error, or panics.  Also accumulates
the total number of `next_fn` invocations. -/
def Pagination.runF {T : Type} : Nat → Fetch T → Pagination T → RunResult T × Nat
  | 0, _, _ => (RunResult.outOfFuel, 0)
  | Nat.succ fuel, f, s =>
    match Pagination.pollNextF f s with
    | (PollOut.done, _, n) => (RunResult.finished [] s, n)
    | (PollOut.errorOut e, s', n) => (RunResult.errored [] e s', n)
    | (PollOut.panic, _, n) => (RunResult.panicked [], n)
    | (PollOut.yield x, s', n) =>
      match Pagination.runF fuel f s' with
      | (r, m) => (RunResult.consItem x r, n + m)

/-- An offset-driven paged fetch function: the underlying full item list
is `L`, the declared total is `L.length`, and a fetch at consumed-count
offset `c` returns the slice of `L` starting at `c` of length `sz c`
(the page that contains offset `c` onward). -/
def offsetFetch {T : Type} (L : List T) (sz : Nat → Nat) : Fetch T :=
  fun c _ _ => Except.ok ((L.drop c).take (sz c), L.length)

/-! ## JSON values and the polymorphic media resolver (src/media/media.rs) -/

/-- A JSON value (`serde_json::Value`); objects keep their fields as an
ordered association list, determinizing `serde_json::Map`. -/
inductive Json
  | null
  | bool (b : Bool)
  | num (n : Int)
  | str (s : String)
  | arr (elems : List Json)
  | obj (fields : List (String × Json))

/-- `serde_json::Map::contains_key`. -/
def containsKey (fields : List (String × Json)) (k : String) : Bool :=
  fields.any (fun p => p.1 == k)

/-- `serde_json::Map::deserialize` applied to a JSON value: succeeds
exactly on objects. -/
def mapDeserialize : Json → Except String (List (String × Json))
  | Json.obj fields => Except.ok fields
  | _ => Except.error "invalid type: expected a map"

/-- Modelled from the spec: the crate's locale enum (defined outside the
provided sources); only the catch-all custom-string variant and equality
matter for the stream-normalization claims, a sample concrete locale is
kept so the type has more than one shape. -/
inductive Locale
  | en_US
  | Custom (locale : String)
  deriving DecidableEq, Repr

/-- `Series` metadata payload (src/media/media.rs, lines 34-60);
a representative subset of the flat data fields is kept (dates,
categories and strict-mode fields are not load-bearing for any claim). -/
structure Series where
  extended_description : String := ""
  series_launch_year : Option Nat := none
  episode_count : Nat := 0
  season_count : Nat := 0
  is_subbed : Bool := false
  is_dubbed : Bool := false
  is_simulcast : Bool := false
  deriving DecidableEq, Repr

/-- `Season` metadata payload (src/media/media.rs, lines 68-95); field
subset as for `Series`. -/
structure Season where
  audio_locales : List Locale := []
  subtitle_locales : List Locale := []
  season_number : Nat := 0
  is_mature : Bool := false
  mature_blocked : Bool := false
  deriving DecidableEq, Repr

/-- `Episode` metadata payload (src/media/media.rs, lines 103-172); field
subset as for `Series`. -/
structure Episode where
  series_id : String := ""
  season_id : String := ""
  episode_number : Nat := 0
  sequence_number : Nat := 0
  is_subbed : Bool := false
  is_dubbed : Bool := false
  is_premium_only : Bool := false
  deriving DecidableEq, Repr

/-- `MovieListing` metadata payload (src/media/media.rs, lines 180-221);
field subset as for `Series`. -/
structure MovieListing where
  first_movie_id : String := ""
  extended_description : String := ""
  movie_release_year : Nat := 0
  is_premium_only : Bool := false
  deriving DecidableEq, Repr

/-- `Movie` metadata payload (src/media/media.rs, lines 230-256); field
subset as for `Series`. -/
structure Movie where
  movie_listing_id : String := ""
  movie_listing_title : String := ""
  is_premium_only : Bool := false
  deriving DecidableEq, Repr

/-- The generic media envelope `Media<M>` (src/media/media.rs, lines
407-451): identity fields, the injected executor and the metadata
payload (image sets, search metadata and strict-mode fields are omitted
as not load-bearing for any claim). -/
structure Media (M : Type) where
  executor : Executor := Executor.mk
  id : String := ""
  stream_id : Option String := none
  playback_url : Option String := none
  external_id : String := ""
  channel_id : String := ""
  slug : String := ""
  title : String := ""
  slug_title : String := ""
  promo_title : String := ""
  description : String := ""
  promo_description : String := ""
  metadata : M
  deriving DecidableEq, Repr

/-- The closed tagged union `MediaCollection` (src/media/media.rs, lines
263-269). -/
inductive MediaCollection
  | Series (media : Media Series)
  | Season (media : Media Season)
  | Episode (media : Media Episode)
  | MovieListing (media : Media MovieListing)
  | Movie (media : Media Movie)
  deriving DecidableEq, Repr

/-- `<MediaCollection as Deserialize>::deserialize` (src/media/media.rs,
lines 277-312).  The five serde-derived `Media<M>` deserializers are the
collaborator parameters `dSeries` … `dMovie`; the function itself is the
marker-key dispatch: decode the input as a map, test the five marker
keys in order, re-decode the whole object with the matching variant's
deserializer (errors propagating via `err_conv`), and fail with
"no metadata were found" when no marker key is present. -/
def MediaCollection.deserialize
    (dSeries : Json → Except String (Media Crunchyroll.Series))
    (dSeason : Json → Except String (Media Crunchyroll.Season))
    (dEpisode : Json → Except String (Media Crunchyroll.Episode))
    (dMovieListing : Json → Except String (Media Crunchyroll.MovieListing))
    (dMovie : Json → Except String (Media Crunchyroll.Movie))
    (j : Json) : Except String MediaCollection :=
  match mapDeserialize j with
  | Except.error e => Except.error e
  | Except.ok as_map =>
    if containsKey as_map "series_metadata" then
      (dSeries (Json.obj as_map)).map MediaCollection.Series
    else if containsKey as_map "season_metadata" then
      (dSeason (Json.obj as_map)).map MediaCollection.Season
    else if containsKey as_map "episode_metadata" then
      (dEpisode (Json.obj as_map)).map MediaCollection.Episode
    else if containsKey as_map "movie_listing_metadata" then
      (dMovieListing (Json.obj as_map)).map MediaCollection.MovieListing
    else if containsKey as_map "movie_metadata" then
      (dMovie (Json.obj as_map)).map MediaCollection.Movie
    else
      Except.error "no metadata were found"

/-- `BulkResult<T>` (src/common.rs, lines 139-142). -/
structure BulkResult (T : Type) where
  items : List T
  total : Nat
  deriving DecidableEq, Repr

/-- `MediaCollection::from_id` (src/media/media.rs, lines 314-341),
modelled as a function of the already-fetched `BulkResult` (the HTTP
request is the out-of-scope transport collaborator): empty item list →
`Input` "not found" error; two or more items → `Internal` error;
exactly one item → that item (`into_iter().next().unwrap()`). -/
def MediaCollection.from_id (id : String) (result : BulkResult MediaCollection) :
    Except CrunchyrollError MediaCollection :=
  match result.items with
  | [] =>
    Except.error (CrunchyrollError.Input s!"no media could be found for id '{id}'")
  | [x] => Except.ok x
  | _ :: _ :: _ =>
    Except.error (CrunchyrollError.Internal
      s!"multiple media were found for id '{id}'. this shouldn't happen, please report it immediately!")

/-- `Media::<M>::from_id` (src/media/media.rs, lines 454-479), modelled
like `MediaCollection.from_id`; the selection logic is identical. -/
def Media.from_id {M : Type} (id : String) (result : BulkResult (Media M)) :
    Except CrunchyrollError (Media M) :=
  match result.items with
  | [] =>
    Except.error (CrunchyrollError.Input s!"no media could be found for id '{id}'")
  | [x] => Except.ok x
  | _ :: _ :: _ =>
    Except.error (CrunchyrollError.Internal
      s!"multiple media were found for id '{id}'. this shouldn't happen, please report it immediately!")

/-! `impl_from_media!` (src/media/media.rs, lines 369-387): the five
`From<Media<M>> for MediaCollection` impls. -/

/-- `From<Media<Series>>`. -/
def MediaCollection.ofSeries (value : Media Crunchyroll.Series) : MediaCollection :=
  MediaCollection.Series value

/-- `From<Media<Season>>`. -/
def MediaCollection.ofSeason (value : Media Crunchyroll.Season) : MediaCollection :=
  MediaCollection.Season value

/-- `From<Media<Episode>>`. -/
def MediaCollection.ofEpisode (value : Media Crunchyroll.Episode) : MediaCollection :=
  MediaCollection.Episode value

/-- `From<Media<MovieListing>>`. -/
def MediaCollection.ofMovieListing (value : Media Crunchyroll.MovieListing) : MediaCollection :=
  MediaCollection.MovieListing value

/-- `From<Media<Movie>>`. -/
def MediaCollection.ofMovie (value : Media Crunchyroll.Movie) : MediaCollection :=
  MediaCollection.Movie value

/-! `impl_try_into_media!` (src/media/media.rs, lines 343-367): the five
`TryInto<Media<M>> for MediaCollection` impls; a mismatched tag yields
`CrunchyrollError::Input("collection is no '<M>'")`. -/

/-- `TryInto<Media<Series>>`. -/
def MediaCollection.tryIntoSeries : MediaCollection → Except CrunchyrollError (Media Crunchyroll.Series)
  | MediaCollection.Series value => Except.ok value
  | _ => Except.error (CrunchyrollError.Input "collection is no 'Series'")

/-- `TryInto<Media<Season>>`. -/
def MediaCollection.tryIntoSeason : MediaCollection → Except CrunchyrollError (Media Crunchyroll.Season)
  | MediaCollection.Season value => Except.ok value
  | _ => Except.error (CrunchyrollError.Input "collection is no 'Season'")

/-- `TryInto<Media<Episode>>`. -/
def MediaCollection.tryIntoEpisode : MediaCollection → Except CrunchyrollError (Media Crunchyroll.Episode)
  | MediaCollection.Episode value => Except.ok value
  | _ => Except.error (CrunchyrollError.Input "collection is no 'Episode'")

/-- `TryInto<Media<MovieListing>>`. -/
def MediaCollection.tryIntoMovieListing :
    MediaCollection → Except CrunchyrollError (Media Crunchyroll.MovieListing)
  | MediaCollection.MovieListing value => Except.ok value
  | _ => Except.error (CrunchyrollError.Input "collection is no 'MovieListing'")

/-- `TryInto<Media<Movie>>`. -/
def MediaCollection.tryIntoMovie : MediaCollection → Except CrunchyrollError (Media Crunchyroll.Movie)
  | MediaCollection.Movie value => Except.ok value
  | _ => Except.error (CrunchyrollError.Input "collection is no 'Movie'")

/-! ## Stream-variant normalization (src/media/stream.rs, lines 16-44)

`deserialize_streams` is generic over the stream payload (`V`, standing
for the opaque `serde_json::Value` leaves) and over the per-format
variant shape (`VT`, `T::Variant` of the `FixStream` trait); the variant
check `T::Variant::deserialize(&data)` is the collaborator parameter
`vd`, and the trailing `serde_json::from_value` re-decode of the
regrouped table into `HashMap<Locale, T>` is the collaborator parameter
`decT` applied locale-by-locale. -/

/-- The hardsub-locale sentinel rewrite (src/media/stream.rs, lines
24-26): a locale key equal to `Locale::Custom(":")` becomes the empty
custom locale. -/
def rewriteStreamLocale (l : Locale) : Locale :=
  if l = Locale.Custom ":" then Locale.Custom "" else l

/-- `HashMap::get` on an association list. -/
def lookupEntry {α β : Type} [DecidableEq α] : List (α × β) → α → Option β
  | [], _ => none
  | (k0, v0) :: rest, k => if k0 = k then some v0 else lookupEntry rest k

/-- `HashMap::insert` on an association list: overwrite the existing
entry for the key, or append a fresh entry. -/
def insertEntry {α β : Type} [DecidableEq α] : List (α × β) → α → β → List (α × β)
  | [], k, v => [(k, v)]
  | (k0, v0) :: rest, k, v =>
    if k0 = k then (k, v) :: rest else (k0, v0) :: insertEntry rest k v

/-- The regrouped `raw` table being built: `locale → format → payload`. -/
abbrev RawStreams (V : Type) := List (Locale × List (String × V))

/-- The `raw` update of src/media/stream.rs, lines 34-38: insert the
payload under `(locale, key)`, either into the locale's existing
format-map (`raw.get_mut`) or as a fresh singleton map. -/
def insertRaw {V : Type} : RawStreams V → Locale → String → V → RawStreams V
  | [], l, k, v => [(l, [(k, v)])]
  | (l0, m0) :: rest, l, k, v =>
    if l0 = l then (l0, insertEntry m0 k v) :: rest
    else (l0, m0) :: insertRaw rest l k v

/-- Nested lookup in a doubly-nested association table. -/
def lookupNested {α β γ : Type} [DecidableEq α] [DecidableEq β]
    (table : List (α × List (β × γ))) (k1 : α) (k2 : β) : Option γ :=
  match lookupEntry table k1 with
  | some inner => lookupEntry inner k2
  | none => none

/-- The inner `for (mut locale, data) in value` loop of
`deserialize_streams` (src/media/stream.rs, lines 23-39) for one wire
format `key`: rewrite the sentinel locale, validate the payload against
the variant shape (aborting with the decode error), and insert the
payload into `raw`. -/
def deserializeStreamsInner {V VT : Type} (vd : V → Except String VT) (key : String) :
    List (Locale × V) → RawStreams V → Except String (RawStreams V)
  | [], raw => Except.ok raw
  | (locale, data) :: rest, raw =>
    match vd data with
    | Except.error e => Except.error e
    | Except.ok _ =>
      deserializeStreamsInner vd key rest (insertRaw raw (rewriteStreamLocale locale) key data)

/-- The outer `for (key, value) in as_map` loop of `deserialize_streams`
(src/media/stream.rs, lines 22-40). -/
def deserializeStreamsOuter {V VT : Type} (vd : V → Except String VT) :
    List (String × List (Locale × V)) → RawStreams V → Except String (RawStreams V)
  | [], raw => Except.ok raw
  | (key, value) :: rest, raw =>
    match deserializeStreamsInner vd key value raw with
    | Except.error e => Except.error e
    | Except.ok raw' => deserializeStreamsOuter vd rest raw'

/-- The regrouping-and-validation phase of `deserialize_streams`
(src/media/stream.rs, lines 19-40), starting from an empty `raw`. -/
def deserializeStreamsRaw {V VT : Type} (vd : V → Except String VT)
    (as_map : List (String × List (Locale × V))) : Except String (RawStreams V) :=
  deserializeStreamsOuter vd as_map []

/-- The trailing `serde_json::to_value` / `serde_json::from_value`
round-trip of src/media/stream.rs, lines 42-43: decode each locale's
format-map into the typed per-format record `T` with the collaborator
decoder `decT`, failing if any record fails to decode. -/
def decodeStreamTable {V T : Type} (decT : List (String × V) → Except String T) :
    RawStreams V → Except String (List (Locale × T))
  | [] => Except.ok []
  | (l, fm) :: rest =>
    match decT fm with
    | Except.error e => Except.error e
    | Except.ok t =>
      match decodeStreamTable decT rest with
      | Except.error e => Except.error e
      | Except.ok table => Except.ok ((l, t) :: table)

/-- `deserialize_streams` (src/media/stream.rs, lines 16-44): regroup
`format → locale → payload` into `locale → format → payload` with the
sentinel-locale rewrite, validating every leaf payload, then decode the
regrouped table into the typed `locale → format-record` map. -/
def deserialize_streams {V VT T : Type} (vd : V → Except String VT)
    (decT : List (String × V) → Except String T)
    (as_map : List (String × List (Locale × V))) : Except String (List (Locale × T)) :=
  match deserializeStreamsRaw vd as_map with
  | Except.error e => Except.error e
  | Except.ok raw => decodeStreamTable decT raw

/-! ## Concrete collaborator instances used by closed statements -/

/-- A fetch function whose first (and every) invocation declares
`total = 0` with an empty page. -/
def fetchEmptyZero : Fetch Nat := fun _ _ _ => Except.ok ([], 0)

/-- A fetch function that always reports a transport error. -/
def fetchFailing : Fetch Nat := fun _ _ _ =>
  Except.error (CrunchyrollError.Request "boom")

/-- A fetch function declaring `total = 2` that returns the page
`[10, 11]` at consumed-count 0 and the page `[20, 21]` afterwards. -/
def fetchTwoPages : Fetch Nat := fun c _ _ =>
  if c = 0 then Except.ok ([10, 11], 2) else Except.ok ([20, 21], 2)

/-! ## Pagination engine: helper lemmas -/

/-- One successful poll: with no stored future and a fetch resolving to a
nonempty page, `poll_next` yields the page's first item, replaces the
buffer with the page's tail, stores the declared total, sets the
initialized flag and increments the consumed count. -/
theorem pollNextF_ok_cons {T : Type} (f : Fetch T) (s : Pagination T)
    (x : T) (rest : List T) (tot : Nat)
    (hguard : s.count < s.total ∨ s.init = false)
    (hns : s.nextState = none)
    (hf : f s.count s.fn_executor s.fn_query = Except.ok (x :: rest, tot)) :
    Pagination.pollNextF f s =
      (PollOut.yield x,
       { s with data := rest, total := tot, nextState := none,
                init := true, count := s.count + 1 }, 1) := by
  unfold Pagination.pollNextF
  rw [if_pos hguard, hns, hf]

/-- A poll on a terminal cursor returns `None` without touching anything. -/
theorem pollNextF_done {T : Type} (f : Fetch T) (s : Pagination T)
    (hguard : ¬(s.count < s.total ∨ s.init = false)) :
    Pagination.pollNextF f s = (PollOut.done, s, 0) := by
  unfold Pagination.pollNextF
  rw [if_neg hguard]

/-- Invariant lemma for exhausting an offset-driven fetch: from any
reachable cursor state (no stored future; the cached total is the real
total once initialized; an uninitialized cursor is at count 0), driving
the stream to exhaustion yields exactly the remaining items
`L.drop s.count`, performs one fetch per item, and ends with
`count = total = L.length`. -/
theorem runF_offsetFetch_inv {T : Type} (L : List T) (sz : Nat → Nat)
    (hsz : ∀ c, 1 ≤ sz c) :
    ∀ (fuel : Nat) (s : Pagination T),
      s.nextState = none →
      (s.init = true → s.total = L.length) →
      s.count ≤ L.length →
      (s.count = L.length → s.init = true) →
      L.length - s.count < fuel →
      ∃ s', Pagination.runF fuel (offsetFetch L sz) s
              = (RunResult.finished (L.drop s.count) s', L.length - s.count)
            ∧ s'.count = L.length ∧ s'.total = L.length := by
  intro fuel
  induction fuel with
  | zero => intro s _ _ _ _ hfuel; omega
  | succ fuel ih =>
    intro s hns htot hle hend hfuel
    rcases Nat.lt_or_ge s.count L.length with hlt | hge
    · -- a fetch-and-yield step
      have hguard : s.count < s.total ∨ s.init = false := by
        cases hi : s.init with
        | false => exact Or.inr rfl
        | true => exact Or.inl (by rw [htot hi]; exact hlt)
      obtain ⟨m, hm⟩ : ∃ m, sz s.count = m + 1 :=
        ⟨sz s.count - 1, (Nat.succ_pred_eq_of_pos (hsz s.count)).symm⟩
      have hpage : (L.drop s.count).take (sz s.count)
          = L[s.count] :: (L.drop (s.count + 1)).take m := by
        rw [List.drop_eq_getElem_cons hlt, hm, List.take_succ_cons]
      have hf : offsetFetch L sz s.count s.fn_executor s.fn_query
          = Except.ok (L[s.count] :: (L.drop (s.count + 1)).take m, L.length) := by
        simp [offsetFetch, hpage]
      have hpoll := pollNextF_ok_cons (offsetFetch L sz) s _ _ _ hguard hns hf
      obtain ⟨s', hrun, hcount, htotal⟩ :=
        ih { s with data := (L.drop (s.count + 1)).take m, total := L.length,
                    nextState := none, init := true, count := s.count + 1 }
          rfl (fun _ => rfl) (by simpa using hlt) (fun _ => rfl) (by simp; omega)
      refine ⟨s', ?_, hcount, htotal⟩
      have hdrop : L.drop s.count = L[s.count] :: L.drop (s.count + 1) :=
        List.drop_eq_getElem_cons hlt
      calc Pagination.runF (fuel + 1) (offsetFetch L sz) s
          = (RunResult.consItem L[s.count]
              (Pagination.runF fuel (offsetFetch L sz)
                { s with data := (L.drop (s.count + 1)).take m, total := L.length,
                         nextState := none, init := true, count := s.count + 1 }).1,
             1 + (Pagination.runF fuel (offsetFetch L sz)
                { s with data := (L.drop (s.count + 1)).take m, total := L.length,
                         nextState := none, init := true, count := s.count + 1 }).2) := by
            rw [Pagination.runF, hpoll]
        _ = (RunResult.finished (L.drop s.count) s', L.length - s.count) := by
            rw [hrun]
            show (RunResult.finished (L[s.count] :: L.drop (s.count + 1)) s',
                  1 + (L.length - (s.count + 1)))
                = (RunResult.finished (L.drop s.count) s', L.length - s.count)
            rw [← hdrop]
            have harith : 1 + (L.length - (s.count + 1)) = L.length - s.count := by omega
            rw [harith]
    · -- the stream is exhausted: count = total = L.length and init = true
      have hceq : s.count = L.length := Nat.le_antisymm hle hge
      have hinit : s.init = true := hend hceq
      have hguard : ¬(s.count < s.total ∨ s.init = false) := by
        rw [htot hinit, hinit]
        simp
        omega
      have hpoll := pollNextF_done (offsetFetch L sz) s hguard
      refine ⟨s, ?_, hceq, htot hinit⟩
      rw [Pagination.runF, hpoll]
      simp [hceq, List.drop_length]

/-- C1 (amended): for every offset-driven fetch function over a
**nonempty** item list `L` (total declared as `N = L.length ≥ 1`, a
fetch at consumed-count `c` returning the nonempty page of `L` starting
at `c`, for any positive page sizes `sz`), pulling the stream until it
yields `None` produces exactly the `N` items of `L`, and the cursor's
consumed count (and cached total) equal `N` at exhaustion — at the cost
of one fetch invocation per yielded item.  (For `N = 0` the claim fails:
see the counterexample; the first pull panics instead of terminating.) -/
theorem pagination_total_exhaustion {T : Type} (L : List T) (sz : Nat → Nat)
    (executor : Executor) (query : Query) (fuel : Nat)
    (hL : L ≠ []) (hsz : ∀ c, 1 ≤ sz c) (hfuel : L.length < fuel) :
    ∃ s', Pagination.runF fuel (offsetFetch L sz) (Pagination.new executor query)
            = (RunResult.finished L s', L.length)
          ∧ s'.count = L.length ∧ s'.total = L.length := by
  have hlen : 0 < L.length := List.length_pos.mpr hL
  have h := runF_offsetFetch_inv L sz hsz fuel (Pagination.new executor query)
    rfl (by intro h; simp [Pagination.new] at h) (Nat.zero_le _)
    (by intro h; simp [Pagination.new] at h; omega) (by simpa [Pagination.new] using hfuel)
  simpa [Pagination.new] using h

/-- C1 witness: the amended theorem applied to the item list `[1, 2, 3]`
with page size 2. -/
theorem pagination_total_exhaustion_witness :
    ∃ s', Pagination.runF 4 (offsetFetch [1, 2, 3] (fun _ => 2))
            (Pagination.new Executor.mk [])
            = (RunResult.finished [1, 2, 3] s', 3)
          ∧ s'.count = 3 ∧ s'.total = 3 := by
  have h := pagination_total_exhaustion [1, 2, 3] (fun _ => 2) Executor.mk [] 4
    (by decide) (fun _ => by norm_num) (by decide)
  simpa using h

/-- C1 counterexample: with the fetch function that declares `total = 0`
and returns the empty page (the `N = 0` instance of the claim), the
first pull panics (`Vec::remove(0)` on the empty replacement buffer), so
pulling until `None` never cleanly produces the claimed 0 items. -/
theorem pagination_total_exhaustion_cex :
    (Pagination.runF 2 fetchEmptyZero (Pagination.new Executor.mk [])).1
        = RunResult.panicked []
    ∧ RunResult.finishedItems
        (Pagination.runF 2 fetchEmptyZero (Pagination.new Executor.mk [])).1 = none :=
  ⟨rfl, rfl⟩

/-- C3: a fetch function whose first invocation returns `total = 0` (with
the corresponding empty page) does not terminate the stream cleanly: the
guard `count < total || !init` lets the first pull through (`init` is
false), the fetch IS invoked exactly once, and the pull then panics at
`data.remove(0)` on the empty page instead of yielding `None` — the
termination check does not treat `total = 0` as "empty, immediately
terminal without error" on a fresh cursor. -/
theorem zero_total_first_pull_panics :
    Pagination.runF 2 fetchEmptyZero (Pagination.new Executor.mk [])
      = (RunResult.panicked [], 1) := rfl

/-- C4: when the fetch callback reports an error, that poll returns the
error as its result with the consumed count and buffer unchanged and no
retry inside the poll (first conjunct) — but `next_state` is left
holding the completed future (the `Err` arm never clears it), so a
subsequent fresh pull does NOT re-issue the fetch: it makes zero
`next_fn` invocations and re-polls the already-completed future, the
"resumed after completion" panic (second conjunct). -/
theorem fetch_error_then_repoll :
    Pagination.pollNextF fetchFailing (Pagination.new Executor.mk [])
      = (PollOut.errorOut (CrunchyrollError.Request "boom"),
         { Pagination.new Executor.mk [] with
             nextState := some (Except.error (CrunchyrollError.Request "boom")) }, 1)
    ∧ Pagination.pollNextF fetchFailing
        { Pagination.new Executor.mk [] with
            nextState := some (Except.error (CrunchyrollError.Request "boom")) }
      = (PollOut.panic,
         { Pagination.new Executor.mk [] with
             nextState := some (Except.error (CrunchyrollError.Request "boom")) }, 0) :=
  ⟨rfl, rfl⟩

/-- C2 (amended): calling the total accessor on a never-initialized
cursor triggers exactly one fetch invocation via a full
`StreamExt::next` pull — which CONSUMES the page's first item (the item
is discarded, the consumed count becomes `count + 1` and the buffer
holds the page's tail) — and reports the server-declared total; calling
it on an already-initialized cursor triggers zero fetch invocations and
returns the cached total. -/
theorem total_accessor {T : Type} (f : Fetch T) (s : Pagination T) :
    (s.init = false → s.nextState = none →
       ∀ x rest tot, f s.count s.fn_executor s.fn_query = Except.ok (x :: rest, tot) →
         Pagination.totalF f s =
           (tot, { s with data := rest, total := tot, nextState := none,
                          init := true, count := s.count + 1 }, 1))
    ∧ (s.init = true → Pagination.totalF f s = (s.total, s, 0)) := by
  constructor
  · intro hinit hns x rest tot hf
    have hpoll := pollNextF_ok_cons f s x rest tot (Or.inr hinit) hns hf
    unfold Pagination.totalF
    rw [if_pos hinit, hpoll]
  · intro hinit
    unfold Pagination.totalF
    rw [if_neg (by rw [hinit]; simp)]

/-- C2 witness: the amended theorem applied to a fresh cursor over the
two-item list `[7, 8]` (one page): the first `total()` call fetches once
and reports 2 while consuming item 7; the second call reports the cached
2 with no fetch. -/
theorem total_accessor_witness :
    Pagination.totalF (offsetFetch [7, 8] (fun _ => 2)) (Pagination.new Executor.mk [])
      = (2, { Pagination.new Executor.mk [] with
                data := [8], total := 2, init := true, count := 1 }, 1)
    ∧ Pagination.totalF (offsetFetch [7, 8] (fun _ => 2))
        { Pagination.new Executor.mk [] with
            data := [8], total := 2, init := true, count := 1 }
      = (2, { Pagination.new Executor.mk [] with
                data := [8], total := 2, init := true, count := 1 }, 0) := by
  constructor
  · have h := (total_accessor (offsetFetch [7, 8] (fun _ => 2))
      (Pagination.new Executor.mk [])).1 rfl rfl 7 [8] 2 rfl
    simpa using h
  · exact (total_accessor (offsetFetch [7, 8] (fun _ => 2))
      { Pagination.new Executor.mk [] with
          data := [8], total := 2, init := true, count := 1 }).2 rfl

/-- C2 counterexample: the claim's "consumes no item" part is false — on
the fresh cursor over `[7, 8]`, one `total()` call leaves the consumed
count at 1 (item 7 was pulled and discarded), not 0. -/
theorem total_accessor_consumes_item_cex :
    (Pagination.totalF (offsetFetch [7, 8] (fun _ => 2))
        (Pagination.new Executor.mk [])).2.1.count = 1 := rfl

/-- C9 (amended): the consumed count never decreases across a poll and
increases by exactly one per yielded item — but the stream does NOT
buffer a page and drain it before the next fetch: every poll that yields
an item performs exactly one fetch invocation during that same poll, at
the current consumed count, yields the head of the page that fetch
returned, and leaves only the page's tail in the buffer (to be
overwritten wholesale by the next poll's fetch).  FIFO order therefore
holds with respect to consumed-count offsets, not within a
once-fetched page. -/
theorem poll_semantics {T : Type} (f : Fetch T) (s : Pagination T) :
    s.count ≤ (Pagination.pollNextF f s).2.1.count
    ∧ (∀ x : T, (Pagination.pollNextF f s).1 = PollOut.yield x →
        (Pagination.pollNextF f s).2.1.count = s.count + 1
        ∧ (Pagination.pollNextF f s).2.2 = 1
        ∧ ∃ rest tot, f s.count s.fn_executor s.fn_query = Except.ok (x :: rest, tot)
            ∧ (Pagination.pollNextF f s).2.1.data = rest) := by
  unfold Pagination.pollNextF
  split
  · split
    · exact ⟨Nat.le_refl _, by intro x hx; simp at hx⟩
    · split
      · exact ⟨Nat.le_refl _, by intro x hx; simp at hx⟩
      · rename_i t total heq
        rcases t with _ | ⟨y, rest⟩
        · exact ⟨Nat.le_succ _, by intro x hx; simp at hx⟩
        · refine ⟨Nat.le_succ _, ?_⟩
          intro x hx
          simp only [PollOut.yield.injEq] at hx
          subst hx
          exact ⟨rfl, rfl, rest, total, heq, rfl⟩
  · exact ⟨Nat.le_refl _, by intro x hx; simp at hx⟩

/-- C9 witness: the amended theorem applied at a fresh cursor over
`[5, 6]` with page size 2 — the first poll yields 5, bumps the count to
1, makes one fetch invocation, and buffers only the tail `[6]`. -/
theorem poll_semantics_witness :
    (Pagination.pollNextF (offsetFetch [5, 6] (fun _ => 2))
        (Pagination.new Executor.mk [])).2.1.count = 0 + 1
    ∧ (Pagination.pollNextF (offsetFetch [5, 6] (fun _ => 2))
        (Pagination.new Executor.mk [])).2.2 = 1
    ∧ ∃ rest tot,
        offsetFetch [5, 6] (fun _ => 2) 0 Executor.mk [] = Except.ok (5 :: rest, tot)
        ∧ (Pagination.pollNextF (offsetFetch [5, 6] (fun _ => 2))
            (Pagination.new Executor.mk [])).2.1.data = rest := by
  have h := (poll_semantics (offsetFetch [5, 6] (fun _ => 2))
    (Pagination.new Executor.mk [])).2 5 rfl
  simpa [Pagination.new] using h

/-- C9 counterexample: the claim's "whole page buffered and drained
item-by-item before the next fetch" is false.  With a fetch declaring
`total = 2` whose page at consumed-count 0 is `[10, 11]`, buffer-drain
semantics would exhaust the stream as `[10, 11]` after a single fetch;
the code instead performs a second fetch (at consumed-count 1, here
returning `[20, 21]`) and yields `[10, 20]` — two fetch invocations, and
item 11 is discarded, never yielded. -/
theorem page_buffering_cex :
    Pagination.runF 3 fetchTwoPages (Pagination.new Executor.mk [])
      = (RunResult.finished [10, 20]
          { data := [21], init := true, nextState := none,
            fn_executor := Executor.mk, fn_query := [], count := 2, total := 2 }, 2) := rfl

/-! ## Polymorphic media resolver and exactly-one resolution -/

/-- C5: deserializing a JSON object into `MediaCollection` checks the
five marker keys in the fixed priority order series, season, episode,
movie-listing, movie metadata; the first key present selects the
matching union variant by re-decoding the whole object with that
variant's `Media` deserializer (`Except.map` both wraps a successful
decode in the variant tag and propagates a decode failure unchanged);
and an object with none of the five keys fails with exactly
"no metadata were found". -/
theorem media_collection_dispatch
    (dSeries : Json → Except String (Media Crunchyroll.Series))
    (dSeason : Json → Except String (Media Crunchyroll.Season))
    (dEpisode : Json → Except String (Media Crunchyroll.Episode))
    (dMovieListing : Json → Except String (Media Crunchyroll.MovieListing))
    (dMovie : Json → Except String (Media Crunchyroll.Movie))
    (m : List (String × Json)) :
    (containsKey m "series_metadata" = true →
       MediaCollection.deserialize dSeries dSeason dEpisode dMovieListing dMovie (Json.obj m)
         = (dSeries (Json.obj m)).map MediaCollection.Series)
    ∧ (containsKey m "series_metadata" = false →
       containsKey m "season_metadata" = true →
       MediaCollection.deserialize dSeries dSeason dEpisode dMovieListing dMovie (Json.obj m)
         = (dSeason (Json.obj m)).map MediaCollection.Season)
    ∧ (containsKey m "series_metadata" = false →
       containsKey m "season_metadata" = false →
       containsKey m "episode_metadata" = true →
       MediaCollection.deserialize dSeries dSeason dEpisode dMovieListing dMovie (Json.obj m)
         = (dEpisode (Json.obj m)).map MediaCollection.Episode)
    ∧ (containsKey m "series_metadata" = false →
       containsKey m "season_metadata" = false →
       containsKey m "episode_metadata" = false →
       containsKey m "movie_listing_metadata" = true →
       MediaCollection.deserialize dSeries dSeason dEpisode dMovieListing dMovie (Json.obj m)
         = (dMovieListing (Json.obj m)).map MediaCollection.MovieListing)
    ∧ (containsKey m "series_metadata" = false →
       containsKey m "season_metadata" = false →
       containsKey m "episode_metadata" = false →
       containsKey m "movie_listing_metadata" = false →
       containsKey m "movie_metadata" = true →
       MediaCollection.deserialize dSeries dSeason dEpisode dMovieListing dMovie (Json.obj m)
         = (dMovie (Json.obj m)).map MediaCollection.Movie)
    ∧ (containsKey m "series_metadata" = false →
       containsKey m "season_metadata" = false →
       containsKey m "episode_metadata" = false →
       containsKey m "movie_listing_metadata" = false →
       containsKey m "movie_metadata" = false →
       MediaCollection.deserialize dSeries dSeason dEpisode dMovieListing dMovie (Json.obj m)
         = Except.error "no metadata were found") := by
  refine ⟨?_, ?_, ?_, ?_, ?_, ?_⟩ <;>
    intros <;>
    simp_all [MediaCollection.deserialize, mapDeserialize]

/-- C5 witness: the dispatch theorem applied at one concrete object per
marker key (each with the default-decoding deserializers), at an object
with no marker key, and at a series-tagged object whose `Media`
deserializer fails (the failure propagates). -/
theorem media_collection_dispatch_witness :
    MediaCollection.deserialize
        (fun _ => Except.ok { metadata := {} }) (fun _ => Except.ok { metadata := {} })
        (fun _ => Except.ok { metadata := {} }) (fun _ => Except.ok { metadata := {} })
        (fun _ => Except.ok { metadata := {} })
        (Json.obj [("series_metadata", Json.null)])
      = Except.ok (MediaCollection.Series { metadata := {} })
    ∧ MediaCollection.deserialize
        (fun _ => Except.ok { metadata := {} }) (fun _ => Except.ok { metadata := {} })
        (fun _ => Except.ok { metadata := {} }) (fun _ => Except.ok { metadata := {} })
        (fun _ => Except.ok { metadata := {} })
        (Json.obj [("season_metadata", Json.null)])
      = Except.ok (MediaCollection.Season { metadata := {} })
    ∧ MediaCollection.deserialize
        (fun _ => Except.ok { metadata := {} }) (fun _ => Except.ok { metadata := {} })
        (fun _ => Except.ok { metadata := {} }) (fun _ => Except.ok { metadata := {} })
        (fun _ => Except.ok { metadata := {} })
        (Json.obj [("episode_metadata", Json.null)])
      = Except.ok (MediaCollection.Episode { metadata := {} })
    ∧ MediaCollection.deserialize
        (fun _ => Except.ok { metadata := {} }) (fun _ => Except.ok { metadata := {} })
        (fun _ => Except.ok { metadata := {} }) (fun _ => Except.ok { metadata := {} })
        (fun _ => Except.ok { metadata := {} })
        (Json.obj [("movie_listing_metadata", Json.null)])
      = Except.ok (MediaCollection.MovieListing { metadata := {} })
    ∧ MediaCollection.deserialize
        (fun _ => Except.ok { metadata := {} }) (fun _ => Except.ok { metadata := {} })
        (fun _ => Except.ok { metadata := {} }) (fun _ => Except.ok { metadata := {} })
        (fun _ => Except.ok { metadata := {} })
        (Json.obj [("movie_metadata", Json.null)])
      = Except.ok (MediaCollection.Movie { metadata := {} })
    ∧ MediaCollection.deserialize
        (fun _ => Except.ok { metadata := {} }) (fun _ => Except.ok { metadata := {} })
        (fun _ => Except.ok { metadata := {} }) (fun _ => Except.ok { metadata := {} })
        (fun _ => Except.ok { metadata := {} })
        (Json.obj [("title", Json.str "t")])
      = Except.error "no metadata were found"
    ∧ MediaCollection.deserialize
        (fun _ => Except.error "boom") (fun _ => Except.ok { metadata := {} })
        (fun _ => Except.ok { metadata := {} }) (fun _ => Except.ok { metadata := {} })
        (fun _ => Except.ok { metadata := {} })
        (Json.obj [("series_metadata", Json.null)])
      = Except.error "boom" := by
  refine ⟨?_, ?_, ?_, ?_, ?_, ?_, ?_⟩
  · have h := (media_collection_dispatch
      (fun _ => Except.ok { metadata := {} }) (fun _ => Except.ok { metadata := {} })
      (fun _ => Except.ok { metadata := {} }) (fun _ => Except.ok { metadata := {} })
      (fun _ => Except.ok { metadata := {} })
      [("series_metadata", Json.null)]).1 rfl
    simpa using h
  · have h := (media_collection_dispatch
      (fun _ => Except.ok { metadata := {} }) (fun _ => Except.ok { metadata := {} })
      (fun _ => Except.ok { metadata := {} }) (fun _ => Except.ok { metadata := {} })
      (fun _ => Except.ok { metadata := {} })
      [("season_metadata", Json.null)]).2.1 rfl rfl
    simpa using h
  · have h := (media_collection_dispatch
      (fun _ => Except.ok { metadata := {} }) (fun _ => Except.ok { metadata := {} })
      (fun _ => Except.ok { metadata := {} }) (fun _ => Except.ok { metadata := {} })
      (fun _ => Except.ok { metadata := {} })
      [("episode_metadata", Json.null)]).2.2.1 rfl rfl rfl
    simpa using h
  · have h := (media_collection_dispatch
      (fun _ => Except.ok { metadata := {} }) (fun _ => Except.ok { metadata := {} })
      (fun _ => Except.ok { metadata := {} }) (fun _ => Except.ok { metadata := {} })
      (fun _ => Except.ok { metadata := {} })
      [("movie_listing_metadata", Json.null)]).2.2.2.1 rfl rfl rfl rfl
    simpa using h
  · have h := (media_collection_dispatch
      (fun _ => Except.ok { metadata := {} }) (fun _ => Except.ok { metadata := {} })
      (fun _ => Except.ok { metadata := {} }) (fun _ => Except.ok { metadata := {} })
      (fun _ => Except.ok { metadata := {} })
      [("movie_metadata", Json.null)]).2.2.2.2.1 rfl rfl rfl rfl rfl
    simpa using h
  · have h := (media_collection_dispatch
      (fun _ => Except.ok { metadata := {} }) (fun _ => Except.ok { metadata := {} })
      (fun _ => Except.ok { metadata := {} }) (fun _ => Except.ok { metadata := {} })
      (fun _ => Except.ok { metadata := {} })
      [("title", Json.str "t")]).2.2.2.2.2 rfl rfl rfl rfl rfl
    exact h
  · have h := (media_collection_dispatch
      (fun _ => Except.error "boom") (fun _ => Except.ok { metadata := {} })
      (fun _ => Except.ok { metadata := {} }) (fun _ => Except.ok { metadata := {} })
      (fun _ => Except.ok { metadata := {} })
      [("series_metadata", Json.null)]).1 rfl
    simpa using h

/-- C6: `MediaCollection::from_id` and `Media::<M>::from_id` applied to
a fetched response: zero items → `Input` "not found" error; two or more
items → `Internal` error; exactly one item → that item. -/
theorem from_id_exactly_one (id : String) (total : Nat) :
    (MediaCollection.from_id id { items := [], total := total }
       = Except.error (CrunchyrollError.Input s!"no media could be found for id '{id}'"))
    ∧ (∀ x : MediaCollection,
        MediaCollection.from_id id { items := [x], total := total } = Except.ok x)
    ∧ (∀ (x y : MediaCollection) (rest : List MediaCollection),
        MediaCollection.from_id id { items := x :: y :: rest, total := total }
          = Except.error (CrunchyrollError.Internal
              s!"multiple media were found for id '{id}'. this shouldn't happen, please report it immediately!"))
    ∧ (∀ M : Type,
        (Media.from_id id { items := ([] : List (Media M)), total := total }
           = Except.error (CrunchyrollError.Input s!"no media could be found for id '{id}'"))
        ∧ (∀ x : Media M, Media.from_id id { items := [x], total := total } = Except.ok x)
        ∧ (∀ (x y : Media M) (rest : List (Media M)),
            Media.from_id id { items := x :: y :: rest, total := total }
              = Except.error (CrunchyrollError.Internal
                  s!"multiple media were found for id '{id}'. this shouldn't happen, please report it immediately!"))) :=
  ⟨rfl, fun _ => rfl, fun _ _ _ => rfl,
   fun _ => ⟨rfl, fun _ => rfl, fun _ _ _ => rfl⟩⟩

/-- C10: for every payload type `M` among Series, Season, Episode,
MovieListing and Movie, converting a `Media<M>` into a `MediaCollection`
via `From` and back via `TryInto` returns the original value, while
`TryInto` toward each of the other four payload types returns the
`Input` "collection is no '<M>'" error. -/
theorem media_roundtrip_tryinto :
    (∀ m : Media Crunchyroll.Series,
        MediaCollection.tryIntoSeries (MediaCollection.ofSeries m) = Except.ok m
        ∧ MediaCollection.tryIntoSeason (MediaCollection.ofSeries m)
            = Except.error (CrunchyrollError.Input "collection is no 'Season'")
        ∧ MediaCollection.tryIntoEpisode (MediaCollection.ofSeries m)
            = Except.error (CrunchyrollError.Input "collection is no 'Episode'")
        ∧ MediaCollection.tryIntoMovieListing (MediaCollection.ofSeries m)
            = Except.error (CrunchyrollError.Input "collection is no 'MovieListing'")
        ∧ MediaCollection.tryIntoMovie (MediaCollection.ofSeries m)
            = Except.error (CrunchyrollError.Input "collection is no 'Movie'"))
    ∧ (∀ m : Media Crunchyroll.Season,
        MediaCollection.tryIntoSeason (MediaCollection.ofSeason m) = Except.ok m
        ∧ MediaCollection.tryIntoSeries (MediaCollection.ofSeason m)
            = Except.error (CrunchyrollError.Input "collection is no 'Series'")
        ∧ MediaCollection.tryIntoEpisode (MediaCollection.ofSeason m)
            = Except.error (CrunchyrollError.Input "collection is no 'Episode'")
        ∧ MediaCollection.tryIntoMovieListing (MediaCollection.ofSeason m)
            = Except.error (CrunchyrollError.Input "collection is no 'MovieListing'")
        ∧ MediaCollection.tryIntoMovie (MediaCollection.ofSeason m)
            = Except.error (CrunchyrollError.Input "collection is no 'Movie'"))
    ∧ (∀ m : Media Crunchyroll.Episode,
        MediaCollection.tryIntoEpisode (MediaCollection.ofEpisode m) = Except.ok m
        ∧ MediaCollection.tryIntoSeries (MediaCollection.ofEpisode m)
            = Except.error (CrunchyrollError.Input "collection is no 'Series'")
        ∧ MediaCollection.tryIntoSeason (MediaCollection.ofEpisode m)
            = Except.error (CrunchyrollError.Input "collection is no 'Season'")
        ∧ MediaCollection.tryIntoMovieListing (MediaCollection.ofEpisode m)
            = Except.error (CrunchyrollError.Input "collection is no 'MovieListing'")
        ∧ MediaCollection.tryIntoMovie (MediaCollection.ofEpisode m)
            = Except.error (CrunchyrollError.Input "collection is no 'Movie'"))
    ∧ (∀ m : Media Crunchyroll.MovieListing,
        MediaCollection.tryIntoMovieListing (MediaCollection.ofMovieListing m) = Except.ok m
        ∧ MediaCollection.tryIntoSeries (MediaCollection.ofMovieListing m)
            = Except.error (CrunchyrollError.Input "collection is no 'Series'")
        ∧ MediaCollection.tryIntoSeason (MediaCollection.ofMovieListing m)
            = Except.error (CrunchyrollError.Input "collection is no 'Season'")
        ∧ MediaCollection.tryIntoEpisode (MediaCollection.ofMovieListing m)
            = Except.error (CrunchyrollError.Input "collection is no 'Episode'")
        ∧ MediaCollection.tryIntoMovie (MediaCollection.ofMovieListing m)
            = Except.error (CrunchyrollError.Input "collection is no 'Movie'"))
    ∧ (∀ m : Media Crunchyroll.Movie,
        MediaCollection.tryIntoMovie (MediaCollection.ofMovie m) = Except.ok m
        ∧ MediaCollection.tryIntoSeries (MediaCollection.ofMovie m)
            = Except.error (CrunchyrollError.Input "collection is no 'Series'")
        ∧ MediaCollection.tryIntoSeason (MediaCollection.ofMovie m)
            = Except.error (CrunchyrollError.Input "collection is no 'Season'")
        ∧ MediaCollection.tryIntoEpisode (MediaCollection.ofMovie m)
            = Except.error (CrunchyrollError.Input "collection is no 'Episode'")
        ∧ MediaCollection.tryIntoMovieListing (MediaCollection.ofMovie m)
            = Except.error (CrunchyrollError.Input "collection is no 'MovieListing'")) :=
  ⟨fun _ => ⟨rfl, rfl, rfl, rfl, rfl⟩, fun _ => ⟨rfl, rfl, rfl, rfl, rfl⟩,
   fun _ => ⟨rfl, rfl, rfl, rfl, rfl⟩, fun _ => ⟨rfl, rfl, rfl, rfl, rfl⟩,
   fun _ => ⟨rfl, rfl, rfl, rfl, rfl⟩⟩

/-! ## Stream-variant normalization: helper lemmas -/

/-- The inner loop errors only with the validation error of one of its
own leaves. -/
theorem dsInner_error_inv {V VT : Type} (vd : V → Except String VT) (key : String) :
    ∀ (lvs : List (Locale × V)) (raw : RawStreams V) (e : String),
      deserializeStreamsInner vd key lvs raw = Except.error e →
      ∃ q ∈ lvs, vd q.2 = Except.error e := by
  intro lvs
  induction lvs with
  | nil => intro raw e h; simp [deserializeStreamsInner] at h
  | cons hd tl ih =>
    intro raw e h
    unfold deserializeStreamsInner at h
    rcases hv : vd hd.2 with e0 | u
    · rw [hv] at h
      cases h
      exact ⟨hd, List.mem_cons_self _ _, hv⟩
    · rw [hv] at h
      obtain ⟨q, hq, hqe⟩ := ih _ _ h
      exact ⟨q, List.mem_cons_of_mem _ hq, hqe⟩

/-- If the inner loop succeeds, every one of its leaves validated. -/
theorem dsInner_ok_valid {V VT : Type} (vd : V → Except String VT) (key : String) :
    ∀ (lvs : List (Locale × V)) (raw raw' : RawStreams V),
      deserializeStreamsInner vd key lvs raw = Except.ok raw' →
      ∀ q ∈ lvs, ∃ u, vd q.2 = Except.ok u := by
  intro lvs
  induction lvs with
  | nil => intro raw raw' _ q hq; cases hq
  | cons hd tl ih =>
    intro raw raw' h q hq
    unfold deserializeStreamsInner at h
    rcases hv : vd hd.2 with e0 | u
    · rw [hv] at h; cases h
    · rw [hv] at h
      rcases List.mem_cons.mp hq with rfl | hq'
      · exact ⟨u, hv⟩
      · exact ih _ _ h q hq'

/-- The outer loop errors only with the validation error of some leaf. -/
theorem dsOuter_error_inv {V VT : Type} (vd : V → Except String VT) :
    ∀ (pending : List (String × List (Locale × V))) (raw : RawStreams V) (e : String),
      deserializeStreamsOuter vd pending raw = Except.error e →
      ∃ p ∈ pending, ∃ q ∈ p.2, vd q.2 = Except.error e := by
  intro pending
  induction pending with
  | nil => intro raw e h; simp [deserializeStreamsOuter] at h
  | cons hd tl ih =>
    intro raw e h
    unfold deserializeStreamsOuter at h
    rcases hv : deserializeStreamsInner vd hd.1 hd.2 raw with e0 | raw'
    · rw [hv] at h
      cases h
      obtain ⟨q, hq, hqe⟩ := dsInner_error_inv vd hd.1 hd.2 raw e hv
      exact ⟨hd, List.mem_cons_self _ _, q, hq, hqe⟩
    · rw [hv] at h
      obtain ⟨p, hp, q, hq, hqe⟩ := ih _ _ h
      exact ⟨p, List.mem_cons_of_mem _ hp, q, hq, hqe⟩

/-- If the outer loop succeeds, every leaf of every format validated. -/
theorem dsOuter_ok_valid {V VT : Type} (vd : V → Except String VT) :
    ∀ (pending : List (String × List (Locale × V))) (raw raw' : RawStreams V),
      deserializeStreamsOuter vd pending raw = Except.ok raw' →
      ∀ p ∈ pending, ∀ q ∈ p.2, ∃ u, vd q.2 = Except.ok u := by
  intro pending
  induction pending with
  | nil => intro raw raw' _ p hp; cases hp
  | cons hd tl ih =>
    intro raw raw' h p hp
    unfold deserializeStreamsOuter at h
    rcases hv : deserializeStreamsInner vd hd.1 hd.2 raw with e0 | raw0
    · rw [hv] at h; cases h
    · rw [hv] at h
      rcases List.mem_cons.mp hp with rfl | hp'
      · exact dsInner_ok_valid vd p.1 p.2 raw raw0 hv
      · exact ih _ _ h p hp'

/-- C7: stream-variant normalization is all-or-nothing.  If the
normalization produces a table, every leaf payload of the wire map
passed the per-format variant-shape validation; and if any leaf payload
fails to validate, the whole normalization aborts with a leaf's
validation error (no table of any kind is produced — the result IS the
error). -/
theorem stream_validation_all_or_nothing {V VT T : Type}
    (vd : V → Except String VT) (decT : List (String × V) → Except String T)
    (as_map : List (String × List (Locale × V))) :
    (∀ table, deserialize_streams vd decT as_map = Except.ok table →
       ∀ p ∈ as_map, ∀ q ∈ p.2, ∃ u, vd q.2 = Except.ok u)
    ∧ ((∃ p ∈ as_map, ∃ q ∈ p.2, ∃ e, vd q.2 = Except.error e) →
       ∃ e, deserialize_streams vd decT as_map = Except.error e
            ∧ ∃ p ∈ as_map, ∃ q ∈ p.2, vd q.2 = Except.error e) := by
  constructor
  · intro table h p hp q hq
    unfold deserialize_streams at h
    rcases hr : deserializeStreamsRaw vd as_map with e | raw
    · rw [hr] at h; cases h
    · exact dsOuter_ok_valid vd as_map [] raw hr p hp q hq
  · intro ⟨p, hp, q, hq, e, hqe⟩
    rcases hr : deserializeStreamsRaw vd as_map with e0 | raw
    · refine ⟨e0, ?_, dsOuter_error_inv vd as_map [] e0 hr⟩
      unfold deserialize_streams
      rw [hr]
    · obtain ⟨u, hu⟩ := dsOuter_ok_valid vd as_map [] raw hr p hp q hq
      rw [hqe] at hu
      cases hu


/-- C7 witness: the all-or-nothing theorem applied to concrete wire maps
(payloads are numbers, a payload validates iff it is below 100,
validation reports the offending number).  First half: on an all-valid
map the produced table implies every leaf validated — instantiated at
the leaf `(en_US, 2)`.  Second half: with the invalid leaf 200 present,
the whole normalization returns a leaf's validation error. -/
theorem stream_validation_all_or_nothing_witness :
    (∃ u, (fun (n : Nat) =>
        if n < 100 then Except.ok () else Except.error (toString n)) 2 = Except.ok u)
    ∧ ∃ e, deserialize_streams
        (fun (n : Nat) => if n < 100 then Except.ok () else Except.error (toString n))
        (fun fm => Except.ok fm)
        [("adaptive_hls", [(Locale.Custom ":", 1), (Locale.en_US, 200)])]
          = Except.error e
        ∧ ∃ p ∈ [("adaptive_hls", [(Locale.Custom ":", (1 : Nat)), (Locale.en_US, 200)])],
            ∃ q ∈ p.2, (fun (n : Nat) =>
              if n < 100 then Except.ok () else Except.error (toString n)) q.2
                = Except.error e := by
  constructor
  · exact (stream_validation_all_or_nothing
      (fun (n : Nat) => if n < 100 then Except.ok () else Except.error (toString n))
      (fun fm => Except.ok fm)
      [("adaptive_hls", [(Locale.Custom ":", 1), (Locale.en_US, 2)])]).1
      [(Locale.Custom "", [("adaptive_hls", 1)]), (Locale.en_US, [("adaptive_hls", 2)])]
      rfl
      ("adaptive_hls", [(Locale.Custom ":", 1), (Locale.en_US, 2)]) (List.mem_cons_self _ _)
      (Locale.en_US, 2) (by decide)
  · exact (stream_validation_all_or_nothing
      (fun (n : Nat) => if n < 100 then Except.ok () else Except.error (toString n))
      (fun fm => Except.ok fm)
      [("adaptive_hls", [(Locale.Custom ":", 1), (Locale.en_US, 200)])]).2
      ⟨("adaptive_hls", [(Locale.Custom ":", 1), (Locale.en_US, 200)]),
       List.mem_cons_self _ _,
       (Locale.en_US, 200), by decide, "200", rfl⟩

/-- A key absent from an association list's key column looks up to
nothing. -/
theorem lookupEntry_eq_none {α β : Type} [DecidableEq α] :
    ∀ (m : List (α × β)) (k : α), k ∉ m.map Prod.fst → lookupEntry m k = none := by
  intro m
  induction m with
  | nil => intro k _; rfl
  | cons hd tl ih =>
    obtain ⟨k0, v0⟩ := hd
    intro k hk
    simp only [List.map_cons, List.mem_cons, not_or] at hk
    obtain ⟨h1, h2⟩ := hk
    unfold lookupEntry
    rw [if_neg (fun hh => h1 hh.symm)]
    exact ih k h2

/-- Overwrite-insert then lookup on an association list. -/
theorem lookupEntry_insertEntry {α β : Type} [DecidableEq α] :
    ∀ (m : List (α × β)) (k k' : α) (v : β),
      lookupEntry (insertEntry m k v) k'
        = if k = k' then some v else lookupEntry m k' := by
  intro m
  induction m with
  | nil => intro k k' v; simp [insertEntry, lookupEntry]
  | cons hd tl ih =>
    obtain ⟨k0, v0⟩ := hd
    intro k k' v
    by_cases h0 : k0 = k
    · subst h0
      by_cases h2 : k0 = k' <;> simp [insertEntry, lookupEntry, h2]
    · by_cases h2 : k0 = k'
      · have hkk : ¬k = k' := fun h => h0 (h2.trans h.symm)
        have hkk' : ¬k' = k := fun h => hkk h.symm
        simp [insertEntry, lookupEntry, h0, h2, hkk, hkk']
      · simp [insertEntry, lookupEntry, h0, h2, ih]

/-- Nested lookup through a cons cell of the raw table. -/
theorem lookupNested_cons {α β γ : Type} [DecidableEq α] [DecidableEq β]
    (l0 : α) (m0 : List (β × γ)) (rest : List (α × List (β × γ))) (l' : α) (k' : β) :
    lookupNested ((l0, m0) :: rest) l' k'
      = if l0 = l' then lookupEntry m0 k' else lookupNested rest l' k' := by
  by_cases h : l0 = l' <;> simp [lookupNested, lookupEntry, h]

/-- The raw-table insert of src/media/stream.rs lines 34-38 changes
exactly the `(locale, format)` slot it writes. -/
theorem lookupNested_insertRaw {V : Type} :
    ∀ (raw : RawStreams V) (l : Locale) (k : String) (v : V) (l' : Locale) (k' : String),
      lookupNested (insertRaw raw l k v) l' k'
        = if l = l' ∧ k = k' then some v else lookupNested raw l' k' := by
  intro raw
  induction raw with
  | nil =>
    intro l k v l' k'
    by_cases h1 : l = l'
    · by_cases h2 : k = k' <;>
        simp [insertRaw, lookupNested_cons, lookupEntry, h1, h2, lookupNested]
    · simp [insertRaw, lookupNested_cons, h1, lookupNested, lookupEntry]
  | cons hd rest ih =>
    obtain ⟨l0, m0⟩ := hd
    intro l k v l' k'
    by_cases h0 : l0 = l
    · subst h0
      rw [show insertRaw ((l0, m0) :: rest) l0 k v = (l0, insertEntry m0 k v) :: rest from
        by simp [insertRaw]]
      rw [lookupNested_cons, lookupNested_cons]
      by_cases h1 : l0 = l'
      · rw [if_pos h1, if_pos h1, lookupEntry_insertEntry]
        by_cases h2 : k = k' <;> simp [h1, h2]
      · rw [if_neg h1, if_neg h1, if_neg (fun hh => h1 hh.1)]
    · rw [show insertRaw ((l0, m0) :: rest) l k v = (l0, m0) :: insertRaw rest l k v from
        by simp [insertRaw, h0]]
      rw [lookupNested_cons, lookupNested_cons]
      by_cases h1 : l0 = l'
      · rw [if_pos h1, if_pos h1,
          if_neg (fun hh : l = l' ∧ k = k' => h0 (h1.trans hh.1.symm))]
      · rw [if_neg h1, if_neg h1, ih]

/-- Lookup characterization of a successful inner loop: for the format
being processed, the last state of the `(locale, format)` slot is the
payload of the (unique, by the no-duplicate hypothesis) inner entry
whose rewritten locale matches; other slots are untouched. -/
theorem dsInner_ok_lookup {V VT : Type} (vd : V → Except String VT) (key : String) :
    ∀ (lvs : List (Locale × V)) (raw raw' : RawStreams V),
      deserializeStreamsInner vd key lvs raw = Except.ok raw' →
      (lvs.map (fun q => rewriteStreamLocale q.1)).Nodup →
      ∀ (l' : Locale) (k' : String),
        lookupNested raw' l' k'
          = if k' = key then
              match lvs.find? (fun q => decide (rewriteStreamLocale q.1 = l')) with
              | some q => some q.2
              | none => lookupNested raw l' k'
            else lookupNested raw l' k' := by
  intro lvs
  induction lvs with
  | nil =>
    intro raw raw' h _ l' k'
    simp only [deserializeStreamsInner] at h
    cases h
    by_cases hk : k' = key <;> simp [hk, List.find?]
  | cons hd tl ih =>
    obtain ⟨l0, v0⟩ := hd
    intro raw raw' h hnd l' k'
    rw [List.map_cons, List.nodup_cons] at hnd
    obtain ⟨hnotin, hnd'⟩ := hnd
    unfold deserializeStreamsInner at h
    rcases hv : vd v0 with e | u
    · rw [hv] at h; cases h
    · rw [hv] at h
      have hIH := ih (insertRaw raw (rewriteStreamLocale l0) key v0) raw' h hnd' l' k'
      by_cases hk : k' = key
      · subst hk
        rw [if_pos rfl] at hIH
        rw [if_pos rfl]
        by_cases hl : rewriteStreamLocale l0 = l'
        · have hfind : tl.find? (fun q => decide (rewriteStreamLocale q.1 = l')) = none := by
            rw [List.find?_eq_none]
            intro q hq
            simp only [decide_eq_true_eq]
            intro hq'
            exact hnotin (hl ▸ hq' ▸ List.mem_map_of_mem (fun q => rewriteStreamLocale q.1) hq)
          rw [hfind, lookupNested_insertRaw, if_pos ⟨hl, rfl⟩] at hIH
          rw [List.find?_cons_of_pos _ (by simpa using hl)]
          exact hIH
        · rw [lookupNested_insertRaw, if_neg (fun hh => hl hh.1)] at hIH
          rw [List.find?_cons_of_neg _ (by simpa using hl)]
          exact hIH
      · rw [if_neg hk] at hIH
        rw [lookupNested_insertRaw,
          if_neg (fun hh : _ ∧ key = k' => hk hh.2.symm)] at hIH
        rw [if_neg hk]
        exact hIH

/-- Lookup characterization of a successful outer loop over distinct
format keys. -/
theorem dsOuter_ok_lookup {V VT : Type} (vd : V → Except String VT) :
    ∀ (pending : List (String × List (Locale × V))) (raw raw' : RawStreams V),
      deserializeStreamsOuter vd pending raw = Except.ok raw' →
      (pending.map Prod.fst).Nodup →
      (∀ p ∈ pending, ((p.2.map (fun q => rewriteStreamLocale q.1)).Nodup)) →
      ∀ (l' : Locale) (k' : String),
        lookupNested raw' l' k'
          = match lookupEntry pending k' with
            | some lvs =>
              match lvs.find? (fun q => decide (rewriteStreamLocale q.1 = l')) with
              | some q => some q.2
              | none => lookupNested raw l' k'
            | none => lookupNested raw l' k' := by
  intro pending
  induction pending with
  | nil =>
    intro raw raw' h _ _ l' k'
    simp only [deserializeStreamsOuter] at h
    cases h
    rfl
  | cons hd rest ih =>
    obtain ⟨key0, lvs0⟩ := hd
    intro raw raw' h hnd hloc l' k'
    rw [List.map_cons, List.nodup_cons] at hnd
    obtain ⟨hnotin, hnd'⟩ := hnd
    unfold deserializeStreamsOuter at h
    rcases hv : deserializeStreamsInner vd key0 lvs0 raw with e | raw0
    · rw [hv] at h; cases h
    · rw [hv] at h
      have hIH := ih raw0 raw' h hnd' (fun p hp => hloc p (List.mem_cons_of_mem _ hp)) l' k'
      have hInner := dsInner_ok_lookup vd key0 lvs0 raw raw0 hv
        (hloc _ (List.mem_cons_self _ _)) l' k'
      by_cases hk : key0 = k'
      · subst hk
        have hrest : lookupEntry rest key0 = none := lookupEntry_eq_none rest key0 hnotin
        rw [hrest] at hIH
        have hIHd : lookupNested raw' l' key0 = lookupNested raw0 l' key0 := hIH
        rw [if_pos rfl] at hInner
        rw [show lookupEntry ((key0, lvs0) :: rest) key0 = some lvs0 from
          by simp [lookupEntry]]
        exact hIHd.trans hInner
      · have hdef : lookupNested raw0 l' k' = lookupNested raw l' k' := by
          rw [hInner, if_neg (fun hh => hk hh.symm)]
        rw [hdef] at hIH
        rw [show lookupEntry ((key0, lvs0) :: rest) k' = lookupEntry rest k' from
          by simp [lookupEntry, hk]]
        exact hIH

/-- C8: a successful stream-variant normalization transposes the wire
map `format → locale → payload` into `locale → format → payload`, with
every locale key passed through the sentinel rewrite: the two-character
wire literal `":"` (`Locale::Custom(":")`) becomes the empty-locale
value `Locale::Custom("")` and every other locale key is kept
unchanged.  The slot `(locale, format)` of the regrouped table holds
exactly the payload whose rewritten wire locale matches, looked up in
the wire map's entry for that format.  (Hypotheses: the wire map is a
well-formed pair of nested maps — format keys are distinct, and within
each format the rewritten locale keys are distinct.) -/
theorem stream_transpose_rewrite {V VT : Type} (vd : V → Except String VT)
    (as_map : List (String × List (Locale × V))) (raw : RawStreams V)
    (hok : deserializeStreamsRaw vd as_map = Except.ok raw)
    (hkeys : (as_map.map Prod.fst).Nodup)
    (hlocs : ∀ p ∈ as_map, ((p.2.map (fun q => rewriteStreamLocale q.1)).Nodup)) :
    rewriteStreamLocale (Locale.Custom ":") = Locale.Custom ""
    ∧ (∀ l : Locale, l ≠ Locale.Custom ":" → rewriteStreamLocale l = l)
    ∧ ∀ (l' : Locale) (k' : String),
        lookupNested raw l' k'
          = match lookupEntry as_map k' with
            | some lvs =>
              match lvs.find? (fun q => decide (rewriteStreamLocale q.1 = l')) with
              | some q => some q.2
              | none => none
            | none => none := by
  refine ⟨rfl, fun l hl => by simp [rewriteStreamLocale, hl], ?_⟩
  intro l' k'
  exact dsOuter_ok_lookup vd as_map [] raw hok hkeys hlocs l' k'

/-- C8 witness: the transpose theorem applied to the concrete wire map
`adaptive_hls → {":" → 1, en_US → 2}, adaptive_dash → {":" → 3}`: the
normalization produces the regrouped table, the payloads stored under
the wire sentinel locale `":"` are found under the empty locale
`Custom ""`, and the plain locale entry keeps its key. -/
theorem stream_transpose_rewrite_witness :
    deserializeStreamsRaw (fun (_ : Nat) => Except.ok ())
        [("adaptive_hls", [(Locale.Custom ":", 1), (Locale.en_US, 2)]),
         ("adaptive_dash", [(Locale.Custom ":", 3)])]
      = Except.ok
          [(Locale.Custom "", [("adaptive_hls", 1), ("adaptive_dash", 3)]),
           (Locale.en_US, [("adaptive_hls", 2)])]
    ∧ lookupNested
        [(Locale.Custom "", [("adaptive_hls", (1 : Nat)), ("adaptive_dash", 3)]),
         (Locale.en_US, [("adaptive_hls", 2)])]
        (Locale.Custom "") "adaptive_dash" = some 3
    ∧ lookupNested
        [(Locale.Custom "", [("adaptive_hls", (1 : Nat)), ("adaptive_dash", 3)]),
         (Locale.en_US, [("adaptive_hls", 2)])]
        Locale.en_US "adaptive_hls" = some 2 := by
  have h := stream_transpose_rewrite (fun (_ : Nat) => Except.ok ())
    [("adaptive_hls", [(Locale.Custom ":", 1), (Locale.en_US, 2)]),
     ("adaptive_dash", [(Locale.Custom ":", 3)])]
    [(Locale.Custom "", [("adaptive_hls", 1), ("adaptive_dash", 3)]),
     (Locale.en_US, [("adaptive_hls", 2)])]
    rfl (by decide) (by decide)
  exact ⟨rfl, (h.2.2 (Locale.Custom "") "adaptive_dash").trans rfl,
    (h.2.2 Locale.en_US "adaptive_hls").trans rfl⟩

end Crunchyroll
